import Mathlib

/-!
Shallow embedding of `src/skooma.py`, a schema-validation engine for
tabular (column-oriented) data, together with proofs about its behaviour.

Python values are modelled by `PyVal` (a runtime type tag plus payload),
pandas Series/DataFrame by `Series`/`DataFrame` (ordered association
lists, mirroring pandas column order and dict insertion order), and a
predicate (`rule`) by a function into `Except String Bool`: `.error msg`
models the predicate raising a runtime exception whose text is `msg`,
and the returned `Bool` models Python truthiness of the predicate result.
-/

namespace Skooma

/-- Runtime type tags, covering the concrete Python/numpy types named in
the five built-in family constructors of the source, plus `pyNone` as a
representative of a type outside every family. -/
inductive PyType where
  | pyInt | npInt | npInt8 | npInt16 | npInt32 | npInt64
  | npUInt8 | npUInt16 | npUInt32 | npUInt64
  | pyFloat | npFloat | npFloat16 | npFloat32 | npFloat64
  | pyBool | npBool
  | pyStr | npString | npUnicode
  | dateDate | dateDatetime
  | pyNone
deriving DecidableEq, Repr

/-- Payload of a Python value, enough to evaluate the predicates used in
the repository's examples and to render `str(x)` for error messages. -/
inductive PyData where
  | dInt (n : Int)
  | dStr (s : String)
  | dBool (b : Bool)
  | dNone
deriving DecidableEq, Repr

/-- A Python value: its runtime type (`type(x)`) and its payload. -/
structure PyVal where
  kind : PyType
  data : PyData
deriving DecidableEq, Repr

/-- Rendering of a value inside an f-string, Python's `str(x)`. -/
def pystr (v : PyVal) : String :=
  match v.data with
  | .dInt n => toString n
  | .dStr s => s
  | .dBool b => if b then "True" else "False"
  | .dNone => "None"

/-- A pandas Series as used by the source: a column name (`series.name`)
and the ordered values of the column. -/
structure Series where
  name : String
  values : List PyVal
deriving DecidableEq

/-- The distinct values of a column in order of first occurrence,
pandas `series.unique()`. -/
def uniqueVals (xs : List PyVal) : List PyVal :=
  xs.foldl (fun acc x => if x ∈ acc then acc else acc ++ [x]) []

/-- Error message `f"Invalid value in column '{col}': {x}"` from
`Type.validate` (src/skooma.py line 19). -/
def invalidMsg (col v : String) : String :=
  "Invalid value in column '" ++ col ++ "': " ++ v

/-- Error message `f"Invalid value in column '{col}': {x} ({err})"` from
the exception handler of `Type.validate` (src/skooma.py line 21). -/
def invalidMsgErr (col v e : String) : String :=
  "Invalid value in column '" ++ col ++ "': " ++ v ++ " (" ++ e ++ ")"

/-- Error message `f"Column '{col}' not found in Schema"` from
`Schema.validate` (src/skooma.py line 77). -/
def notInSchemaMsg (col : String) : String :=
  "Column '" ++ col ++ "' not found in Schema"

/-- Error message `f"Column '{col}' not found in DataFrame"` from
`Schema.validate` (src/skooma.py line 81). -/
def notInDFMsg (col : String) : String :=
  "Column '" ++ col ++ "' not found in DataFrame"

/-- The class `Type` of the source (named `TypeRule`, as `Type` is
reserved in Lean): an optional predicate `rule` and an optional list
`types` of accepted runtime types (both default to `None` in the
source's constructor). -/
structure TypeRule where
  rule : Option (PyVal → Except String Bool)
  types : Option (List PyType)

/-- Evaluation of `type(x) in self.types and self.rule(x)` inside the
`try` block of `Type.validate`: membership testing on `types = None`
raises a `TypeError`; Python's `and` short-circuits, so the predicate
runs only when the membership test succeeds; a raising predicate is
modelled by `.error`. -/
def TypeRule.checkValue (t : TypeRule) (rule : PyVal → Except String Bool)
    (x : PyVal) : Except String Bool :=
  match t.types with
  | none => .error "argument of type 'NoneType' is not iterable"
  | some ts => if x.kind ∈ ts then rule x else pure false

/-- The messages contributed by one distinct value in the loop body of
`Type.validate`: none if the value passes, the plain invalid-value
message if the kind or predicate check fails, and the message carrying
the exception text if evaluation raised. -/
def valueCheck (t : TypeRule) (rule : PyVal → Except String Bool)
    (col : String) (x : PyVal) : List String :=
  match t.checkValue rule x with
  | .ok true => []
  | .ok false => [invalidMsg col (pystr x)]
  | .error err => [invalidMsgErr col (pystr x) err]

/-- `Type.validate` (src/skooma.py lines 12-22): when a predicate is
configured, fold over the column's distinct values accumulating error
messages; when `self.rule` is `None` the guard `if self.rule:` skips the
loop entirely and the empty list is returned. -/
def TypeRule.validate (t : TypeRule) (series : Series) : List String :=
  let col := series.name
  match t.rule with
  | none => []
  | some rule =>
    (uniqueVals series.values).foldl (fun errors x => errors ++ valueCheck t rule col x) []

/-- The accepted runtime types of the `Integer` family. -/
def integerKinds : List PyType :=
  [.pyInt, .npInt, .npInt8, .npInt16, .npInt32, .npInt64,
    .npUInt8, .npUInt16, .npUInt32, .npUInt64]

/-- The accepted runtime types of the `Float` family. -/
def floatKinds : List PyType :=
  [.pyFloat, .npFloat, .npFloat16, .npFloat32, .npFloat64]

/-- The accepted runtime types of the `Boolean` family. -/
def booleanKinds : List PyType := [.pyBool, .npBool]

/-- The accepted runtime types of the `String` family. -/
def stringKinds : List PyType := [.pyStr, .npString, .npUnicode]

/-- The accepted runtime types of the `DateTime` family. -/
def dateTimeKinds : List PyType := [.dateDate, .dateDatetime]

/-- The `Integer` family constructor (src/skooma.py lines 25-41). -/
def Integer (rule : Option (PyVal → Except String Bool)) : TypeRule :=
  ⟨rule, some integerKinds⟩

/-- The `Float` family constructor (src/skooma.py lines 44-46). -/
def Float (rule : Option (PyVal → Except String Bool)) : TypeRule :=
  ⟨rule, some floatKinds⟩

/-- The `Boolean` family constructor (src/skooma.py lines 49-51). -/
def Boolean (rule : Option (PyVal → Except String Bool)) : TypeRule :=
  ⟨rule, some booleanKinds⟩

/-- The `String` family constructor (src/skooma.py lines 54-56), named
`StringRule` because `String` is Lean's string type. -/
def StringRule (rule : Option (PyVal → Except String Bool)) : TypeRule :=
  ⟨rule, some stringKinds⟩

/-- The `DateTime` family constructor (src/skooma.py lines 59-61). -/
def DateTime (rule : Option (PyVal → Except String Bool)) : TypeRule :=
  ⟨rule, some dateTimeKinds⟩

/-- A pandas DataFrame as consumed by `Schema.validate`: an ordered list
of named columns with their values; column names are unique in a real
DataFrame. Iterating a DataFrame yields its column names in order. -/
structure DataFrame where
  cols : List (String × List PyVal)
deriving DecidableEq

/-- The column names of a DataFrame, in order (`for col in df`). -/
def DataFrame.columns (df : DataFrame) : List String :=
  df.cols.map Prod.fst

/-- Column access `df[col]` (the values of the first column named `c`). -/
def DataFrame.column (df : DataFrame) (c : String) : List PyVal :=
  (df.cols.lookup c).getD []

/-- The class `Schema` (src/skooma.py lines 64-91): the `schema` dict as
an ordered association list (Python dicts preserve insertion order and
have unique keys) mapping column names to an optional `TypeRule` (a
`None` entry is falsy, so `if rule:` skips value checks), and the
`strict` flag. -/
structure Schema where
  schema : List (String × Option TypeRule)
  strict : Bool

/-- The keys of the schema dict (`for col in schema` / `col in schema`). -/
def Schema.keys (s : Schema) : List String :=
  s.schema.map Prod.fst

/-- An arbitrary Python object passed as the `schema` argument of
`Schema.__init__`; only a `dict` is accepted by the constructor's
assertion. -/
inductive PyObj where
  | dict (entries : List (String × Option TypeRule))
  | list (items : List PyVal)
  | strO (s : String)
  | intO (n : Int)
  | noneO

/-- `Schema.__init__` (src/skooma.py lines 65-68): the statement
`assert type(schema) is dict` raises `AssertionError` for every
non-dict argument before any field is set, modelled by `Except`. -/
def Schema.init (schemaArg : PyObj) (strict : Bool) : Except String Schema :=
  match schemaArg with
  | .dict entries => .ok ⟨entries, strict⟩
  | _ => .error "AssertionError"

/-- The strict-mode loop of `Schema.validate` (src/skooma.py lines
74-77): when `self.strict`, every DataFrame column absent from the
schema dict appends one message; otherwise nothing is appended. -/
def Schema.strictErrors (s : Schema) (df : DataFrame) : List String :=
  if s.strict then
    df.columns.foldl
      (fun errors col => if col ∈ s.keys then errors else errors ++ [notInSchemaMsg col]) []
  else []

/-- The body of the per-schema-column loop of `Schema.validate`
(src/skooma.py lines 78-86) for one entry of the schema dict: a missing
column appends one message and its rule is never invoked; a present
column with a rule contributes that rule's messages; a present column
with rule `None` contributes nothing. -/
def columnCheck (df : DataFrame)
    (entry : String × Option TypeRule) : List String :=
  if entry.fst ∈ df.columns then
    match entry.snd with
    | some rule => rule.validate ⟨entry.fst, df.column entry.fst⟩
    | none => []
  else [notInDFMsg entry.fst]

/-- `Schema.validate` (src/skooma.py lines 70-91). The source returns
only the boolean (`return False` when `len(errors)` is nonzero, else
`return True`) and prints the accumulated `errors` list; the embedding
returns the pair of the boolean and that list. -/
def Schema.validate (s : Schema) (df : DataFrame) : Bool × List String :=
  let errors := s.strictErrors df
  let errors := s.schema.foldl (fun errs entry => errs ++ columnCheck df entry) errors
  if errors.length ≠ 0 then (false, errors) else (true, errors)

/-- `Schema.validate` as a state-passing method call: the result of the
call together with the receiver object after the call. The method body
contains no assignment to `self` (it only reads `self.schema` and
`self.strict` into locals), so the receiver after the call is the
receiver before it. -/
def Schema.validateSt (s : Schema) (df : DataFrame) : (Bool × List String) × Schema :=
  (s.validate df, s)

/-- The inner function `validate_i` of the decorator (src/skooma.py
lines 106-116). It walks `schemata` positionally paired with the call
arguments `args_` (the recursion drops the head of both lists, keeping
index `i` aligned). A `None` entry is skipped; at the FIRST entry that
is an actual Schema the function returns `some false` ("return False")
when that argument fails validation and `some true` ("return True")
when it passes — in either case without looking at later entries. If
the loop finishes without meeting a Schema, Python's implicit `return
None` is modelled by `.ok none`; `args_[i]` out of range raises
`IndexError`, modelled by `.error`. -/
def validate_i : List (Option Schema) → List DataFrame → Except String (Option Bool)
  | [], _ => .ok none
  | none :: schemata, args_ => validate_i schemata args_.tail
  | some schema_in :: _, args_ =>
    match args_ with
    | [] => .error "IndexError"
    | df :: _ =>
      if (schema_in.validate df).fst then .ok (some true) else .ok (some false)

/-- The inner function `validate_o` of the decorator (src/skooma.py
lines 118-124): validate the return value, yielding `False` or `True`. -/
def validate_o (schema_out : Schema) (output : DataFrame) : Bool :=
  if (schema_out.validate output).fst then true else false

/-- Python truthiness of the decorator's `args` argument in
`validate_i(args, args_) if args else True`: `None` and the empty
tuple are falsy, a non-empty tuple is truthy. -/
def argsTruthy : Option (List (Option Schema)) → Bool
  | none => false
  | some l => !l.isEmpty

/-- The wrapper `decorated_func` built by `validate(args, returns)`
(src/skooma.py lines 126-138), for a callee whose arguments and result
are DataFrames. The result pairs the value returned to the caller
(`none` models Python's implicit `return None`) with a flag recording
whether the callee was executed; an uncaught `IndexError` from
`validate_i` propagates through `Except`. Note `if valid_inputs:` is a
truthiness test on the three-valued `True`/`False`/`None` result of
`validate_i`, of which only `True` is truthy. -/
def decorated_func (args : Option (List (Option Schema))) (returns : Option Schema)
    (func : List DataFrame → DataFrame) (args_ : List DataFrame) :
    Except String (Option DataFrame × Bool) := do
  let valid_inputs : Option Bool ←
    if argsTruthy args then validate_i (args.getD []) args_ else pure (some true)
  if valid_inputs = some true then
    let output := func args_
    let valid_output :=
      match returns with
      | some schema_out => validate_o schema_out output
      | none => true
    if valid_output then return (some output, true) else return (none, true)
  else
    return (none, false)

/-! Helper lemmas about the embedding, shared by the claim theorems. -/

theorem foldl_append_eq_flatten {α β : Type} (f : α → List β) (l : List α) (init : List β) :
    l.foldl (fun acc x => acc ++ f x) init = init ++ (l.map f).flatten := by
  induction l generalizing init with
  | nil => simp
  | cons a l ih => simp [ih, List.append_assoc]

theorem foldl_if_append {α β : Type} (p : α → Prop) [DecidablePred p] (f : α → β)
    (l : List α) (init : List β) :
    l.foldl (fun acc x => if p x then acc else acc ++ [f x]) init
      = init ++ (l.filter fun x => decide ¬ p x).map f := by
  induction l generalizing init with
  | nil => simp
  | cons a l ih =>
    by_cases h : p a
    · simp [h, ih]
    · simp [h, ih, List.append_assoc]

theorem validate_snd (s : Schema) (df : DataFrame) :
    (s.validate df).snd = s.strictErrors df ++ (s.schema.map (columnCheck df)).flatten := by
  simp only [Schema.validate]
  rw [foldl_append_eq_flatten]
  split <;> rfl

theorem validate_fst_eq (s : Schema) (df : DataFrame) :
    (s.validate df).fst = (s.validate df).snd.isEmpty := by
  simp only [Schema.validate]
  generalize s.schema.foldl (fun errs entry => errs ++ columnCheck df entry)
      (s.strictErrors df) = e
  cases e with
  | nil => simp
  | cons a l => simp

theorem strictErrors_eq_filterMap (s : Schema) (df : DataFrame) (h : s.strict = true) :
    s.strictErrors df
      = (df.columns.filter fun c => decide ¬ c ∈ s.keys).map notInSchemaMsg := by
  unfold Schema.strictErrors
  rw [if_pos h, foldl_if_append]
  simp

theorem strictErrors_of_not_strict (s : Schema) (df : DataFrame) (h : s.strict = false) :
    s.strictErrors df = [] := by
  unfold Schema.strictErrors
  rw [h]
  simp

theorem typeRule_validate_none (t : TypeRule) (series : Series) (h : t.rule = none) :
    t.validate series = [] := by
  simp only [TypeRule.validate]
  rw [h]

theorem typeRule_validate_eq_flatten (t : TypeRule) (rule : PyVal → Except String Bool)
    (series : Series) (h : t.rule = some rule) :
    t.validate series
      = ((uniqueVals series.values).map (valueCheck t rule series.name)).flatten := by
  simp only [TypeRule.validate]
  rw [h]
  exact foldl_append_eq_flatten _ _ []

theorem mem_typeRule_validate_shape (t : TypeRule) (series : Series) (m : String)
    (h : m ∈ t.validate series) :
    ∃ x e, m = invalidMsg series.name (pystr x) ∨ m = invalidMsgErr series.name (pystr x) e := by
  cases hr : t.rule with
  | none => rw [typeRule_validate_none t series hr] at h; simp at h
  | some rule =>
    rw [typeRule_validate_eq_flatten t rule series hr] at h
    simp only [List.mem_flatten, List.mem_map] at h
    obtain ⟨l, ⟨x, _, rfl⟩, hm⟩ := h
    unfold valueCheck at hm
    cases hc : t.checkValue rule x with
    | ok b =>
      cases b with
      | true => rw [hc] at hm; simp at hm
      | false =>
        rw [hc] at hm
        simp only [List.mem_singleton] at hm
        exact ⟨x, "", Or.inl hm⟩
    | error e =>
      rw [hc] at hm
      simp only [List.mem_singleton] at hm
      exact ⟨x, e, Or.inr hm⟩

/-! Lemmas about the four error-message shapes: the first character
separates value-level messages (starting `I`) from column-level ones
(starting `C`), and the last character separates the strict-mode
message (ending in `a` from `Schema`) from the missing-column message
(ending in `e` from `DataFrame`). -/

theorem ne_of_data_head {a b : String} (h : a.data.head? ≠ b.data.head?) : a ≠ b :=
  fun e => h (by rw [e])

theorem ne_of_data_getLast {a b : String} (h : a.data.getLast? ≠ b.data.getLast?) : a ≠ b :=
  fun e => h (by rw [e])

theorem invalidMsg_head (col v : String) : (invalidMsg col v).data.head? = some 'I' := rfl

theorem invalidMsgErr_head (col v e : String) :
    (invalidMsgErr col v e).data.head? = some 'I' := rfl

theorem notInSchemaMsg_head (c : String) : (notInSchemaMsg c).data.head? = some 'C' := rfl

theorem notInDFMsg_head (c : String) : (notInDFMsg c).data.head? = some 'C' := rfl

theorem notInSchemaMsg_getLast (c : String) :
    (notInSchemaMsg c).data.getLast? = some 'a' := by
  have h : (notInSchemaMsg c).data
      = ("Column '".data ++ c.data) ++ "' not found in Schema".data := rfl
  rw [h, List.getLast?_append]
  rfl

theorem notInDFMsg_getLast (c : String) :
    (notInDFMsg c).data.getLast? = some 'e' := by
  have h : (notInDFMsg c).data
      = ("Column '".data ++ c.data) ++ "' not found in DataFrame".data := rfl
  rw [h, List.getLast?_append]
  rfl

theorem notInSchemaMsg_ne_notInDFMsg (a b : String) : notInSchemaMsg a ≠ notInDFMsg b := by
  apply ne_of_data_getLast
  rw [notInSchemaMsg_getLast, notInDFMsg_getLast]
  simp

theorem invalidMsg_ne_notInSchemaMsg (col v c : String) :
    invalidMsg col v ≠ notInSchemaMsg c := by
  apply ne_of_data_head
  rw [invalidMsg_head, notInSchemaMsg_head]
  simp

theorem invalidMsgErr_ne_notInSchemaMsg (col v e c : String) :
    invalidMsgErr col v e ≠ notInSchemaMsg c := by
  apply ne_of_data_head
  rw [invalidMsgErr_head, notInSchemaMsg_head]
  simp

theorem invalidMsg_ne_notInDFMsg (col v c : String) :
    invalidMsg col v ≠ notInDFMsg c := by
  apply ne_of_data_head
  rw [invalidMsg_head, notInDFMsg_head]
  simp

theorem invalidMsgErr_ne_notInDFMsg (col v e c : String) :
    invalidMsgErr col v e ≠ notInDFMsg c := by
  apply ne_of_data_head
  rw [invalidMsgErr_head, notInDFMsg_head]
  simp

theorem notInSchemaMsg_injective : Function.Injective notInSchemaMsg := by
  intro a b h
  have h2 : ("Column '".data ++ a.data) ++ "' not found in Schema".data
      = ("Column '".data ++ b.data) ++ "' not found in Schema".data := congrArg String.data h
  exact String.ext (List.append_cancel_left (List.append_cancel_right h2))

theorem notInDFMsg_injective : Function.Injective notInDFMsg := by
  intro a b h
  have h2 : ("Column '".data ++ a.data) ++ "' not found in DataFrame".data
      = ("Column '".data ++ b.data) ++ "' not found in DataFrame".data := congrArg String.data h
  exact String.ext (List.append_cancel_left (List.append_cancel_right h2))

/-! Concrete fixtures used by witnesses and counterexamples. -/

/-- A Python `int` value. -/
def vInt (n : Int) : PyVal := ⟨.pyInt, .dInt n⟩

/-- A Python `str` value. -/
def vStr (s : String) : PyVal := ⟨.pyStr, .dStr s⟩

/-- The predicate `lambda x: x >= 0` of the spec's Scenario A, defined
on integer payloads. -/
def nonNegRule : PyVal → Except String Bool := fun v =>
  match v.data with
  | .dInt n => pure (decide (0 ≤ n))
  | _ => .error "unorderable types"

/-- A predicate that raises the exception text `boom` on the value `7`
and accepts everything else, exercising the fault-isolation path. -/
def explodingRule : PyVal → Except String Bool := fun v =>
  match v.data with
  | .dInt 7 => .error "boom"
  | _ => pure true

/-- A callee returning an empty DataFrame, used where the decorated
function's body is irrelevant. -/
def constEmptyFunc : List DataFrame → DataFrame := fun _ => ⟨[]⟩

/-- Discriminator for the constructor assertion `type(schema) is dict`. -/
def PyObj.isDict : PyObj → Bool := fun o =>
  match o with
  | .dict _ => true
  | _ => false

/-! Claim theorems. -/

/-- C1 (counterexample): the claim that a family rule built with no
predicate still performs the kind-membership check is false at a
concrete input: `pyStr` is not among the `Integer` family's accepted
kinds, yet `Integer(None).validate` on a column holding the string
value `x` returns no messages, where the claim demands an
invalid-value message for `x`. -/
theorem c1_counterexample :
    PyType.pyStr ∉ integerKinds ∧ (Integer none).types = some integerKinds ∧
    (Integer none).validate ⟨"c", [vStr "x"]⟩ = [] :=
  ⟨by decide, rfl, rfl⟩

/-- C1 (amended): a family rule constructed with no predicate performs
no checks at all — `Type.validate` is guarded by `if self.rule:`, so
without a predicate it returns no messages for every column, whatever
the runtime kinds of the values; the kind-membership check runs only
together with a configured predicate. -/
theorem c1_no_predicate_no_messages (t : TypeRule) (series : Series) (h : t.rule = none) :
    t.validate series = [] ∧ (Integer none).validate series = []
      ∧ (Float none).validate series = [] ∧ (Boolean none).validate series = []
      ∧ (StringRule none).validate series = [] ∧ (DateTime none).validate series = [] :=
  ⟨typeRule_validate_none t series h, rfl, rfl, rfl, rfl, rfl⟩

/-- C1 (witness): the amended theorem instantiated at the `Boolean`
family with no predicate on a column of mixed-kind values. -/
theorem c1_witness :
    (Boolean none).rule = none ∧
    ((Boolean none).validate ⟨"c", [vStr "x", vInt 3]⟩ = []
      ∧ (Integer none).validate ⟨"c", [vStr "x", vInt 3]⟩ = []
      ∧ (Float none).validate ⟨"c", [vStr "x", vInt 3]⟩ = []
      ∧ (Boolean none).validate ⟨"c", [vStr "x", vInt 3]⟩ = []
      ∧ (StringRule none).validate ⟨"c", [vStr "x", vInt 3]⟩ = []
      ∧ (DateTime none).validate ⟨"c", [vStr "x", vInt 3]⟩ = []) :=
  ⟨rfl, c1_no_predicate_no_messages (Boolean none) ⟨"c", [vStr "x", vInt 3]⟩ rfl⟩

/-- C3: for every schema and table, `validate` returns `false` exactly
when the accumulated error list is non-empty, and returns `true` with
an empty list on success. -/
theorem c3_false_iff_nonempty (s : Schema) (df : DataFrame) :
    ((s.validate df).fst = false ↔ (s.validate df).snd ≠ []) ∧
    ((s.validate df).fst = true ↔ (s.validate df).snd = []) := by
  rw [validate_fst_eq]
  generalize (s.validate df).snd = e
  cases e <;> simp

/-- C5: duplicates of the same offending value contribute one message:
for `Schema({"age": Integer(lambda x: x >= 0)}, strict=True)` applied
to `{"age": [5, -1, 5]}`, `validate` returns `false` with exactly one
message `Invalid value in column 'age': -1`. -/
theorem c5_duplicates_once :
    Schema.validate ⟨[("age", some (Integer (some nonNegRule)))], true⟩
        ⟨[("age", [vInt 5, vInt (-1), vInt 5])]⟩
      = (false, ["Invalid value in column 'age': -1"]) ∧
    List.count "Invalid value in column 'age': -1"
      (Schema.validate ⟨[("age", some (Integer (some nonNegRule)))], true⟩
        ⟨[("age", [vInt 5, vInt (-1), vInt 5])]⟩).snd = 1 :=
  ⟨by decide, by decide⟩

/-- C8: constructing a `Schema` with a non-dict argument fails at
construction time: the constructor's assertion raises before any field
is set and no `Schema` object is produced, so the failure can never be
deferred to a `validate` call. -/
theorem c8_nondict_construction_fails (arg : PyObj) (strict : Bool)
    (h : arg.isDict = false) :
    Schema.init arg strict = .error "AssertionError" := by
  cases arg with
  | dict entries => simp [PyObj.isDict] at h
  | list items => rfl
  | strO s => rfl
  | intO n => rfl
  | noneO => rfl

/-- C8 (witness): constructing a `Schema` from a Python list fails. -/
theorem c8_witness :
    PyObj.isDict (.list []) = false ∧
    Schema.init (.list []) true = .error "AssertionError" :=
  ⟨rfl, c8_nondict_construction_fails (.list []) true rfl⟩

/-- C9: `validate` is a pure function of the (schema, table) pair: the
receiver is unchanged by a call, and repeating the call on the
resulting receiver yields the identical boolean and the identical
error-message list. -/
theorem c9_validate_stateless (s : Schema) (df : DataFrame) :
    (s.validateSt df).snd = s ∧
    ((s.validateSt df).snd.validateSt df).fst = (s.validateSt df).fst :=
  ⟨rfl, rfl⟩

/-- C4: a predicate fault on one value is recorded as the message
carrying the fault text and is confined to that value: the column's
message list decomposes around the faulting value into the checks of
the earlier and later distinct values, and the whole table's message
list still decomposes into the contribution of every column. -/
theorem c4_predicate_fault_isolated
    (t : TypeRule) (rule : PyVal → Except String Bool) (ts : List PyType)
    (series : Series) (pre post : List PyVal) (x : PyVal) (msg : String)
    (hrule : t.rule = some rule) (hts : t.types = some ts)
    (hkind : x.kind ∈ ts) (hraise : rule x = .error msg)
    (hu : uniqueVals series.values = pre ++ x :: post)
    (s : Schema) (df : DataFrame) :
    t.validate series
      = (pre.map (valueCheck t rule series.name)).flatten
        ++ invalidMsgErr series.name (pystr x) msg
          :: (post.map (valueCheck t rule series.name)).flatten
    ∧ (s.validate df).snd = s.strictErrors df ++ (s.schema.map (columnCheck df)).flatten := by
  refine ⟨?_, validate_snd s df⟩
  rw [typeRule_validate_eq_flatten t rule series hrule, hu]
  rw [List.map_append, List.flatten_append, List.map_cons, List.flatten_cons]
  have hv : valueCheck t rule series.name x = [invalidMsgErr series.name (pystr x) msg] := by
    simp [valueCheck, TypeRule.checkValue, hts, hkind, hraise]
  rw [hv]
  rfl

/-- C4 (witness): the `Integer` family with a predicate that raises
`boom` on the value `7`, applied to a column holding `1, 7, 2`: the
fault is recorded for `7` and the later value `2` is still checked. -/
theorem c4_witness :
    (Integer (some explodingRule)).rule = some explodingRule ∧
    (Integer (some explodingRule)).types = some integerKinds ∧
    (vInt 7).kind ∈ integerKinds ∧
    explodingRule (vInt 7) = .error "boom" ∧
    uniqueVals [vInt 1, vInt 7, vInt 2] = [vInt 1] ++ vInt 7 :: [vInt 2] ∧
    ((Integer (some explodingRule)).validate ⟨"n", [vInt 1, vInt 7, vInt 2]⟩
        = ([vInt 1].map (valueCheck (Integer (some explodingRule)) explodingRule "n")).flatten
          ++ invalidMsgErr "n" (pystr (vInt 7)) "boom"
            :: ([vInt 2].map (valueCheck (Integer (some explodingRule)) explodingRule "n")).flatten
      ∧ (Schema.validate ⟨[], false⟩ ⟨[]⟩).snd
          = Schema.strictErrors ⟨[], false⟩ ⟨[]⟩
            ++ (([] : List (String × Option TypeRule)).map (columnCheck ⟨[]⟩)).flatten) :=
  ⟨rfl, rfl, by decide, rfl, by decide,
    c4_predicate_fault_isolated (Integer (some explodingRule)) explodingRule integerKinds
      ⟨"n", [vInt 1, vInt 7, vInt 2]⟩ [vInt 1] [vInt 2] (vInt 7) "boom"
      rfl rfl (by decide) rfl (by decide) ⟨[], false⟩ ⟨[]⟩⟩

/-! Counting lemmas for the strict-mode and missing-column messages. -/

theorem count_schemaMsg_columnChecks_zero (df : DataFrame)
    (entries : List (String × Option TypeRule)) (c : String) :
    ((entries.map (columnCheck df)).flatten).count (notInSchemaMsg c) = 0 := by
  rw [List.count_eq_zero]
  intro hmem
  rw [List.mem_flatten] at hmem
  obtain ⟨l, hl, hm⟩ := hmem
  rw [List.mem_map] at hl
  obtain ⟨⟨k, r⟩, _, rfl⟩ := hl
  unfold columnCheck at hm
  by_cases hk : k ∈ df.columns
  · rw [if_pos hk] at hm
    cases r with
    | none => simp at hm
    | some rule =>
      obtain ⟨x, e, h1 | h1⟩ := mem_typeRule_validate_shape _ _ _ hm
      · exact invalidMsg_ne_notInSchemaMsg k (pystr x) c h1.symm
      · exact invalidMsgErr_ne_notInSchemaMsg k (pystr x) e c h1.symm
  · rw [if_neg hk] at hm
    simp only [List.mem_singleton] at hm
    exact notInSchemaMsg_ne_notInDFMsg c k hm

theorem count_notInDF_columnCheck (df : DataFrame) (c : String) (hnot : c ∉ df.columns)
    (entry : String × Option TypeRule) :
    (columnCheck df entry).count (notInDFMsg c) = if entry.fst = c then 1 else 0 := by
  obtain ⟨k, r⟩ := entry
  unfold columnCheck
  by_cases hk : k ∈ df.columns
  · rw [if_pos hk]
    have hne : ¬ (k, r).fst = c := fun e => hnot (e ▸ hk)
    rw [if_neg hne]
    cases r with
    | none => rfl
    | some rule =>
      rw [List.count_eq_zero]
      intro hmem
      obtain ⟨x, e, h1 | h1⟩ := mem_typeRule_validate_shape _ _ _ hmem
      · exact invalidMsg_ne_notInDFMsg k (pystr x) c h1.symm
      · exact invalidMsgErr_ne_notInDFMsg k (pystr x) e c h1.symm
  · rw [if_neg hk]
    by_cases he : (k, r).fst = c
    · rw [if_pos he]
      simp only at he
      rw [he]
      simp
    · rw [if_neg he]
      rw [List.count_eq_zero]
      intro hmem
      simp only [List.mem_singleton] at hmem
      exact he (notInDFMsg_injective hmem.symm)

theorem sum_indicator_eq_count (entries : List (String × Option TypeRule)) (c : String) :
    (entries.map fun e => if e.fst = c then 1 else 0).sum = (entries.map Prod.fst).count c := by
  induction entries with
  | nil => rfl
  | cons a l ih =>
    simp only [List.map_cons, List.sum_cons, List.count_cons, ih]
    by_cases h : a.fst = c
    · simp [h, Nat.add_comm]
    · simp [h]

theorem count_notInDF_flatten (df : DataFrame)
    (entries : List (String × Option TypeRule)) (c : String) (hnot : c ∉ df.columns) :
    ((entries.map (columnCheck df)).flatten).count (notInDFMsg c)
      = (entries.map Prod.fst).count c := by
  rw [List.count_flatten, List.map_map]
  have hmap : entries.map (List.count (notInDFMsg c) ∘ columnCheck df)
      = entries.map fun e => if e.fst = c then 1 else 0 := by
    apply List.map_congr_left
    intro e _
    exact count_notInDF_columnCheck df c hnot e
  rw [hmap, sum_indicator_eq_count]

/-- C6: against a strict schema, every table column absent from the
schema's rule set contributes exactly one `Column '<name>' not found in
Schema` message, while the same table against a non-strict schema with
the identical rule set contributes no such message. -/
theorem c6_strict_extra_column (s s' : Schema) (df : DataFrame) (c : String)
    (hstrict : s.strict = true) (hs' : s'.strict = false) (hsame : s'.schema = s.schema)
    (hnodup : df.columns.Nodup) (hc : c ∈ df.columns) (hnot : c ∉ s.keys) :
    (s.validate df).snd.count (notInSchemaMsg c) = 1 ∧
    (s'.validate df).snd.count (notInSchemaMsg c) = 0 := by
  constructor
  · rw [validate_snd, List.count_append]
    rw [count_schemaMsg_columnChecks_zero]
    rw [strictErrors_eq_filterMap s df hstrict]
    rw [List.count_map_of_injective _ _ notInSchemaMsg_injective c]
    rw [List.count_filter (by simp [hnot])]
    rw [List.count_eq_one_of_mem hnodup hc]
  · rw [validate_snd, hsame, strictErrors_of_not_strict s' df hs', List.nil_append]
    exact count_schemaMsg_columnChecks_zero df s.schema c

/-- C6 (witness): the table with columns `a` and `b` against a strict
schema knowing only `a` yields exactly one message for `b`; the
non-strict schema with the same rules yields none. -/
theorem c6_witness :
    (Schema.strict ⟨[("a", none)], true⟩ = true) ∧
    (Schema.strict ⟨[("a", none)], false⟩ = false) ∧
    (Schema.schema ⟨[("a", none)], false⟩ = Schema.schema ⟨[("a", none)], true⟩) ∧
    (DataFrame.columns ⟨[("a", []), ("b", [])]⟩).Nodup ∧
    "b" ∈ DataFrame.columns ⟨[("a", []), ("b", [])]⟩ ∧
    "b" ∉ Schema.keys ⟨[("a", none)], true⟩ ∧
    ((Schema.validate ⟨[("a", none)], true⟩ ⟨[("a", []), ("b", [])]⟩).snd.count
        (notInSchemaMsg "b") = 1 ∧
      (Schema.validate ⟨[("a", none)], false⟩ ⟨[("a", []), ("b", [])]⟩).snd.count
        (notInSchemaMsg "b") = 0) :=
  ⟨rfl, rfl, rfl, by decide, by decide, by decide,
    c6_strict_extra_column ⟨[("a", none)], true⟩ ⟨[("a", none)], false⟩
      ⟨[("a", []), ("b", [])]⟩ "b" rfl rfl rfl (by decide) (by decide) (by decide)⟩

/-- C7: every schema column absent from the table contributes exactly
one `Column '<name>' not found in DataFrame` message, and that column's
entire contribution is that single message — its rule is never invoked,
so it produces no value-level messages. -/
theorem c7_missing_column (s : Schema) (df : DataFrame) (c : String)
    (hkeys : s.keys.Nodup) (hc : c ∈ s.keys) (hnot : c ∉ df.columns) :
    (s.validate df).snd.count (notInDFMsg c) = 1 ∧
    ∀ entry ∈ s.schema, entry.fst = c → columnCheck df entry = [notInDFMsg c] := by
  constructor
  · rw [validate_snd, List.count_append]
    have h1 : (s.strictErrors df).count (notInDFMsg c) = 0 := by
      cases hstrict : s.strict with
      | false => rw [strictErrors_of_not_strict s df hstrict]; rfl
      | true =>
        rw [strictErrors_eq_filterMap s df hstrict]
        rw [List.count_eq_zero]
        intro hmem
        rw [List.mem_map] at hmem
        obtain ⟨x, _, hx⟩ := hmem
        exact notInSchemaMsg_ne_notInDFMsg x c hx
    rw [h1, count_notInDF_flatten df s.schema c hnot]
    have h2 : (s.schema.map Prod.fst).count c = 1 := List.count_eq_one_of_mem hkeys hc
    rw [h2]
  · intro entry _ he
    unfold columnCheck
    rw [he, if_neg hnot]

/-- C7 (witness): a schema requiring `age` (with an `Integer` rule)
against a table having only `name`: exactly one missing-column message
for `age`, whose entry contributes nothing else. -/
theorem c7_witness :
    (Schema.keys ⟨[("age", some (Integer none))], true⟩).Nodup ∧
    "age" ∈ Schema.keys ⟨[("age", some (Integer none))], true⟩ ∧
    "age" ∉ DataFrame.columns ⟨[("name", [vStr "a"])]⟩ ∧
    ((Schema.validate ⟨[("age", some (Integer none))], true⟩
        ⟨[("name", [vStr "a"])]⟩).snd.count (notInDFMsg "age") = 1 ∧
      ∀ entry ∈ Schema.schema ⟨[("age", some (Integer none))], true⟩,
        entry.fst = "age" →
          columnCheck ⟨[("name", [vStr "a"])]⟩ entry = [notInDFMsg "age"]) :=
  ⟨by decide, by decide, by decide,
    c7_missing_column ⟨[("age", some (Integer none))], true⟩ ⟨[("name", [vStr "a"])]⟩
      "age" (by decide) (by decide) (by decide)⟩

/-- Auxiliary for C10: the input-validation loop falls through all
`None` entries and hits Python's implicit `return None`. -/
theorem validate_i_all_none (l : List (Option Schema)) (args_ : List DataFrame)
    (h : ∀ x ∈ l, x = none) : validate_i l args_ = .ok none := by
  induction l generalizing args_ with
  | nil => rfl
  | cons a l ih =>
    have ha : a = none := h a (List.mem_cons_self a l)
    subst ha
    exact ih args_.tail fun x hx => h x (List.mem_cons_of_mem _ hx)

/-- C10: when the decorator receives a non-empty `args` tuple whose
entries are all `None`, `validate_i` returns `None`, which is falsy, so
the decorated call never executes the callee and returns `None` even
though no validation failed. -/
theorem c10_all_none_args (l : List (Option Schema)) (ret : Option Schema)
    (func : List DataFrame → DataFrame) (args_ : List DataFrame)
    (hne : l ≠ []) (hall : ∀ x ∈ l, x = none) :
    decorated_func (some l) ret func args_ = .ok (none, false) := by
  have ht : argsTruthy (some l) = true := by
    cases l with
    | nil => exact absurd rfl hne
    | cons a l => rfl
  simp [decorated_func, ht, validate_i_all_none l args_ hall]
  rfl

/-- C10 (witness): `args=(None,)` with no `returns` schema: the callee
is never executed and the call returns `None`. -/
theorem c10_witness :
    ([(none : Option Schema)] ≠ []) ∧ (∀ x ∈ [(none : Option Schema)], x = none) ∧
    decorated_func (some [none]) none constEmptyFunc [] = .ok (none, false) :=
  ⟨by simp, by simp,
    c10_all_none_args [none] none constEmptyFunc [] (by simp) (by simp)⟩

/-- A schema that accepts any table: non-strict with no column rules. -/
def sPass : Schema := ⟨[], false⟩

/-- A strict schema requiring a column `age`, which an empty table
fails. -/
def sFail : Schema := ⟨[("age", none)], true⟩

/-- C2: evaluation of the code at the failing input. With
`args = (sPass, sFail)` the input-validation loop returns `True` right
after the first schema-bearing argument passes, so the callee executes
and its result is returned even though the second argument fails its
schema — contradicting the decorator's own docstring (\"It only
executes the decorated function if all inputs/outputs pass
validation.\"). -/
theorem c2_first_arg_only :
    decorated_func (some [some sPass, some sFail]) none constEmptyFunc [⟨[]⟩, ⟨[]⟩]
      = .ok (some ⟨[]⟩, true) ∧
    (sFail.validate ⟨[]⟩).fst = false :=
  ⟨rfl, rfl⟩

end Skooma
